import Mathlib

/-!
Shallow embedding of the `EnhancedPetDNAMatching` Solidity contract
(FHEPetDNAMatching repository).  Encrypted integers (`euint8`, `euint32`)
are modelled by their plaintext values as `Nat` with explicit wrap-around
(`% 256`, `% 2^32`) where the FHE arithmetic wraps; addresses are `Nat`;
storage mappings are functions with the zero-initialised Solidity default;
reverting calls are modelled by `Except`, an error meaning the state is
left unchanged.  The environment-supplied pieces of an invocation
(`msg.sender`, `msg.value`, `block.timestamp`, the Gateway-assigned
decryption id, proof validity, success of the external ETH transfer) are
explicit arguments of each operation.
-/

namespace PetDNA

/-- `MATCHING_FEE = 0.001 ether`, in wei. -/
def MATCHING_FEE : Nat := 1000000000000000

/-- `DEFAULT_CALLBACK_TIMEOUT = 2 hours`, in seconds. -/
def DEFAULT_CALLBACK_TIMEOUT : Nat := 7200

/-- `MIN_CALLBACK_TIMEOUT = 10 minutes`, in seconds. -/
def MIN_CALLBACK_TIMEOUT : Nat := 600

/-- `MAX_CALLBACK_TIMEOUT = 24 hours`, in seconds. -/
def MAX_CALLBACK_TIMEOUT : Nat := 86400

/-- `MIN_COMPATIBILITY_SCORE = 70`. -/
def MIN_COMPATIBILITY_SCORE : Nat := 70

/-- Plaintext view of the `DNAProfile` struct (each `euint8` field is its
cleartext value). -/
structure DNAProfile where
  marker1 : Nat
  marker2 : Nat
  marker3 : Nat
  marker4 : Nat
  healthRisk : Nat
  temperament : Nat
  isActive : Bool
deriving DecidableEq, Inhabited

/-- The `Pet` struct.  The Solidity field `exists` is spelled
`existsFlag` (`exists` is reserved in Lean). -/
structure Pet where
  owner : Nat
  name : String
  breed : String
  age : Nat
  isAvailableForBreeding : Bool
  dnaProfile : DNAProfile
  registrationTime : Nat
  existsFlag : Bool
deriving DecidableEq, Inhabited

/-- The `MatchingRequest` struct (`encryptedScore` is the plaintext under
the `euint32` handle). -/
structure MatchingRequest where
  petId1 : Nat
  petId2 : Nat
  requester : Nat
  isActive : Bool
  isCompleted : Bool
  isRefunded : Bool
  requestTime : Nat
  timeoutDeadline : Nat
  paidFee : Nat
  compatibilityScore : Nat
  decryptionRequestId : Nat
  encryptedScore : Nat
deriving DecidableEq, Inhabited

/-- The contract's events. -/
inductive Event where
  | PetRegistered (petId owner : Nat) (name breed : String)
  | MatchingRequested (requestId petId1 petId2 requester timeoutDeadline : Nat)
  | DecryptionRequested (requestId decryptionRequestId : Nat)
  | MatchingCompleted (requestId compatibilityScore : Nat) (isSuccessfulMatch : Bool)
  | MatchingRefunded (requestId requester amount : Nat) (reason : String)
  | TimeoutTriggered (requestId refundAmount : Nat)
  | PetBreedingStatusChanged (petId : Nat) (isAvailable : Bool)
  | PlatformFeesWithdrawn (toAddr amount : Nat)
  | CallbackTimeoutUpdated (newTimeout : Nat)
  | EmergencyPauseToggled (isPaused : Bool)
  | OwnershipTransferred (previousOwner newOwner : Nat)
deriving DecidableEq

/-- Revert reasons, one constructor per distinct `require` message. -/
inductive Err where
  | NotOwner
  | PetNotFound
  | NotPetOwner
  | InvalidPetId
  | ContractPaused
  | InvalidRequestId
  | RequestNotActive
  | InvalidNameLength
  | InvalidBreedLength
  | InvalidAge
  | IncorrectMatchingFee
  | SelfMatch
  | Pet1NotAvailable
  | Pet2NotAvailable
  | MustOwnOnePet
  | InvalidProof
  | InvalidDecryptionRequest
  | RequestAlreadyCompleted
  | RequestTimedOut
  | AlreadyRefunded
  | TimeoutNotReached
  | RefundTransferFailed
  | InvalidRecipient
  | NoFeesToWithdraw
  | FeeWithdrawalFailed
  | TimeoutTooShort
  | TimeoutTooLong
  | InvalidNewOwner
deriving DecidableEq

/-- The spec's `StateConflict` error category: "request not in the expected
state — already completed/refunded, or callback arriving after its own
deadline" (a premature timeout claim is likewise a state conflict). -/
def IsStateConflict : Err → Bool
  | .RequestNotActive => true
  | .RequestAlreadyCompleted => true
  | .RequestTimedOut => true
  | .AlreadyRefunded => true
  | .TimeoutNotReached => true
  | _ => false

/-- Whole contract storage. -/
structure ContractState where
  owner : Nat
  nextPetId : Nat
  nextRequestId : Nat
  platformFees : Nat
  callbackTimeout : Nat
  isPaused : Bool
  pets : Nat → Pet
  matchingRequests : Nat → MatchingRequest
  ownerToPets : Nat → List Nat
  requestIdByDecryptionId : Nat → Nat

/-- Point update of a storage mapping. -/
def mapSet {α : Type} (m : Nat → α) (k : Nat) (v : α) : Nat → α :=
  fun i => if i = k then v else m i

/-- The state produced by the constructor. -/
def initialState (deployer : Nat) : ContractState where
  owner := deployer
  nextPetId := 1
  nextRequestId := 1
  platformFees := 0
  callbackTimeout := DEFAULT_CALLBACK_TIMEOUT
  isPaused := false
  pets := fun _ => default
  matchingRequests := fun _ => default
  ownerToPets := fun _ => []
  requestIdByDecryptionId := fun _ => 0

/-! ### Homomorphic scoring, over plaintexts -/

/-- Wrapping `euint8` subtraction. -/
def sub8 (a b : Nat) : Nat := (a + 256 - b) % 256

/-- Wrapping `euint32` addition. -/
def add32 (a b : Nat) : Nat := (a + b) % 4294967296

/-- Wrapping `euint32` subtraction. -/
def sub32 (a b : Nat) : Nat := (a + 4294967296 - b) % 4294967296

/-- `_absDiff`: `select(FHE.ge a b, FHE.sub a b, FHE.sub b a)` over
plaintexts. -/
def absDiff (a b : Nat) : Nat :=
  if b ≤ a then sub8 a b else sub8 b a

/-- `_calculateCompatibility` over plaintext profiles, with the source's
exact operation structure. -/
def calculateCompatibility (pet1DNA pet2DNA : DNAProfile) : Nat :=
  let diff1 := absDiff pet1DNA.marker1 pet2DNA.marker1
  let diff2 := absDiff pet1DNA.marker2 pet2DNA.marker2
  let diff3 := absDiff pet1DNA.marker3 pet2DNA.marker3
  let diff4 := absDiff pet1DNA.marker4 pet2DNA.marker4
  let diversity := add32 (add32 diff1 diff2) (add32 diff3 diff4)
  let healthPenalty := add32 pet1DNA.healthRisk pet2DNA.healthRisk
  let tempDiff := absDiff pet1DNA.temperament pet2DNA.temperament
  let tempScore := sub32 200 tempDiff
  let rawScore := add32 diversity tempScore
  sub32 rawScore healthPenalty

/-- `_normalizeScore`: scale the raw score to roughly 0–100 and clamp. -/
def normalizeScore (rawScore : Nat) : Nat :=
  let obfuscatedScore := rawScore * 100 / 1024
  if obfuscatedScore > 100 then 100 else obfuscatedScore

/-! ### The spec's reference scoring definition

Written from the spec's §4.2 wording, to be compared with
`calculateCompatibility`: per-slot abs-diff via `select(a>=b, a-b, b-a)`,
the per-slot marker differences summed into a diversity term, the risk
attributes summed into a penalty, `closeness = constant − abs_diff`, and
`diversity + closeness − penalty` returned as one encrypted wide integer. -/

/-- Spec reference: per-slot absolute difference `select(a>=b, a-b, b-a)`. -/
def specAbsDiff (a b : Nat) : Nat :=
  if a ≥ b then sub8 a b else sub8 b a

/-- Spec reference: the score of §4.2, with the diversity term a left fold
over the four marker slots. -/
def specScore (pet1DNA pet2DNA : DNAProfile) : Nat :=
  let slotDiffs :=
    [ specAbsDiff pet1DNA.marker1 pet2DNA.marker1,
      specAbsDiff pet1DNA.marker2 pet2DNA.marker2,
      specAbsDiff pet1DNA.marker3 pet2DNA.marker3,
      specAbsDiff pet1DNA.marker4 pet2DNA.marker4 ]
  let diversity := slotDiffs.foldl add32 0
  let penalty := add32 pet1DNA.healthRisk pet2DNA.healthRisk
  let closeness := sub32 200 (specAbsDiff pet1DNA.temperament pet2DNA.temperament)
  sub32 (add32 diversity closeness) penalty

/-! ### Entry points -/

/-- `registerPet`.  Arguments: contract state, `msg.sender`,
`block.timestamp`, the public fields, and the plaintexts of the six
encrypted inputs.  Returns the new state, the pet id, and the events. -/
def registerPet (s : ContractState) (sender now : Nat) (name breed : String)
    (age encMarker1 encMarker2 encMarker3 encMarker4 encHealthRisk encTemperament : Nat) :
    Except Err (ContractState × Nat × List Event) :=
  if s.isPaused then .error .ContractPaused
  else if ¬(0 < name.length ∧ name.length ≤ 50) then .error .InvalidNameLength
  else if ¬(0 < breed.length ∧ breed.length ≤ 50) then .error .InvalidBreedLength
  else if ¬(0 < age ∧ age ≤ 30) then .error .InvalidAge
  else
    let petId := s.nextPetId
    let dnaProfile : DNAProfile :=
      { marker1 := encMarker1 % 256
        marker2 := encMarker2 % 256
        marker3 := encMarker3 % 256
        marker4 := encMarker4 % 256
        healthRisk := encHealthRisk % 256
        temperament := encTemperament % 256
        isActive := true }
    let pet : Pet :=
      { owner := sender
        name := name
        breed := breed
        age := age
        isAvailableForBreeding := true
        dnaProfile := dnaProfile
        registrationTime := now
        existsFlag := true }
    let s1 : ContractState :=
      { s with
        nextPetId := s.nextPetId + 1
        pets := mapSet s.pets petId pet
        ownerToPets := mapSet s.ownerToPets sender (s.ownerToPets sender ++ [petId]) }
    .ok (s1, petId, [Event.PetRegistered petId sender name breed])

/-- The `validPetId` modifier's two checks. -/
def validPetIdRange (s : ContractState) (petId : Nat) : Prop :=
  0 < petId ∧ petId < s.nextPetId

instance (s : ContractState) (petId : Nat) : Decidable (validPetIdRange s petId) := by
  unfold validPetIdRange; infer_instance

/-- `requestMatching`.  Arguments: state, `msg.sender`, `block.timestamp`,
`msg.value`, the two pet ids, and the Gateway-assigned decryption request
id (environment-supplied).  Returns the new state, the request id, and the
events. -/
def requestMatching (s : ContractState) (sender now value petId1 petId2
    decryptionRequestId : Nat) :
    Except Err (ContractState × Nat × List Event) :=
  if s.isPaused then .error .ContractPaused
  else if ¬ validPetIdRange s petId1 then .error .InvalidPetId
  else if (s.pets petId1).existsFlag = false then .error .PetNotFound
  else if ¬ validPetIdRange s petId2 then .error .InvalidPetId
  else if (s.pets petId2).existsFlag = false then .error .PetNotFound
  else if value ≠ MATCHING_FEE then .error .IncorrectMatchingFee
  else if petId1 = petId2 then .error .SelfMatch
  else if (s.pets petId1).isAvailableForBreeding = false then .error .Pet1NotAvailable
  else if (s.pets petId2).isAvailableForBreeding = false then .error .Pet2NotAvailable
  else if sender ≠ (s.pets petId1).owner ∧ sender ≠ (s.pets petId2).owner then
    .error .MustOwnOnePet
  else
    let requestId := s.nextRequestId
    let deadline := now + s.callbackTimeout
    let encryptedScore :=
      calculateCompatibility (s.pets petId1).dnaProfile (s.pets petId2).dnaProfile
    let req : MatchingRequest :=
      { petId1 := petId1
        petId2 := petId2
        requester := sender
        isActive := true
        isCompleted := false
        isRefunded := false
        requestTime := now
        timeoutDeadline := deadline
        paidFee := value
        compatibilityScore := 0
        decryptionRequestId := decryptionRequestId
        encryptedScore := encryptedScore }
    let s1 : ContractState :=
      { s with
        nextRequestId := s.nextRequestId + 1
        matchingRequests := mapSet s.matchingRequests requestId req
        requestIdByDecryptionId :=
          mapSet s.requestIdByDecryptionId decryptionRequestId requestId }
    .ok (s1, requestId,
      [Event.MatchingRequested requestId petId1 petId2 sender deadline,
       Event.DecryptionRequested requestId decryptionRequestId])

/-- `_processRefund`.  `sendOk` is whether the external ETH transfer
succeeds; its failure reverts the whole surrounding call. -/
def processRefund (s : ContractState) (requestId : Nat) (reason : String)
    (sendOk : Bool) : Except Err (ContractState × List Event) :=
  let request := s.matchingRequests requestId
  if request.isRefunded = true then .error .AlreadyRefunded
  else
    let refundAmount := request.paidFee
    let refundRecipient := request.requester
    let request1 := { request with isRefunded := true, isActive := false }
    let s1 := { s with matchingRequests := mapSet s.matchingRequests requestId request1 }
    if sendOk = false then .error .RefundTransferFailed
    else .ok (s1, [Event.MatchingRefunded requestId refundRecipient refundAmount reason])

/-- `processMatchingCallback`.  Arguments: state, `block.timestamp`, the
Gateway's decryption request id, the decoded cleartext score, whether
`FHE.checkSignatures` accepts the proof, and whether a refund transfer (if
any) succeeds. -/
def processMatchingCallback (s : ContractState) (now decryptionRequestId
    cleartextScore : Nat) (proofValid sendOk : Bool) :
    Except Err (ContractState × List Event) :=
  if proofValid = false then .error .InvalidProof
  else
    let requestId := s.requestIdByDecryptionId decryptionRequestId
    if requestId = 0 then .error .InvalidDecryptionRequest
    else
      let request := s.matchingRequests requestId
      if request.isActive = false then .error .RequestNotActive
      else if request.isCompleted = true then .error .RequestAlreadyCompleted
      else if request.timeoutDeadline < now then .error .RequestTimedOut
      else
        let score := cleartextScore % 4294967296
        let normalizedScore := normalizeScore score
        let request1 :=
          { request with
            compatibilityScore := normalizedScore
            isCompleted := true
            isActive := false }
        let s1 := { s with matchingRequests := mapSet s.matchingRequests requestId request1 }
        if MIN_COMPATIBILITY_SCORE ≤ normalizedScore then
          .ok ({ s1 with platformFees := s1.platformFees + request1.paidFee },
            [Event.MatchingCompleted requestId normalizedScore true])
        else
          match processRefund s1 requestId "Compatibility score below threshold" sendOk with
          | .error e => .error e
          | .ok (s2, evs) =>
            .ok (s2, evs ++ [Event.MatchingCompleted requestId normalizedScore false])

/-- `claimTimeoutRefund`.  Callable by anyone; `sendOk` is whether the
refund transfer succeeds. -/
def claimTimeoutRefund (s : ContractState) (now requestId : Nat) (sendOk : Bool) :
    Except Err (ContractState × List Event) :=
  if ¬ (0 < requestId ∧ requestId < s.nextRequestId) then .error .InvalidRequestId
  else if (s.matchingRequests requestId).isActive = false then .error .RequestNotActive
  else
    let request := s.matchingRequests requestId
    if request.isCompleted = true then .error .RequestAlreadyCompleted
    else if request.isRefunded = true then .error .AlreadyRefunded
    else if ¬ (request.timeoutDeadline < now) then .error .TimeoutNotReached
    else
      match processRefund s requestId "Gateway callback timeout" sendOk with
      | .error e => .error e
      | .ok (s1, evs) =>
        .ok (s1, evs ++ [Event.TimeoutTriggered requestId request.paidFee])

/-- `toggleBreedingStatus`. -/
def toggleBreedingStatus (s : ContractState) (sender petId : Nat) :
    Except Err (ContractState × List Event) :=
  if ¬ validPetIdRange s petId then .error .InvalidPetId
  else if (s.pets petId).existsFlag = false then .error .PetNotFound
  else if (s.pets petId).owner ≠ sender then .error .NotPetOwner
  else
    let pet := s.pets petId
    let pet1 := { pet with isAvailableForBreeding := !pet.isAvailableForBreeding }
    .ok ({ s with pets := mapSet s.pets petId pet1 },
      [Event.PetBreedingStatusChanged petId pet1.isAvailableForBreeding])

/-- `withdrawPlatformFees`. -/
def withdrawPlatformFees (s : ContractState) (sender toAddr : Nat) (sendOk : Bool) :
    Except Err (ContractState × List Event) :=
  if sender ≠ s.owner then .error .NotOwner
  else if toAddr = 0 then .error .InvalidRecipient
  else if s.platformFees = 0 then .error .NoFeesToWithdraw
  else
    let amount := s.platformFees
    let s1 := { s with platformFees := 0 }
    if sendOk = false then .error .FeeWithdrawalFailed
    else .ok (s1, [Event.PlatformFeesWithdrawn toAddr amount])

/-- `setCallbackTimeout`. -/
def setCallbackTimeout (s : ContractState) (sender newTimeout : Nat) :
    Except Err (ContractState × List Event) :=
  if sender ≠ s.owner then .error .NotOwner
  else if newTimeout < MIN_CALLBACK_TIMEOUT then .error .TimeoutTooShort
  else if MAX_CALLBACK_TIMEOUT < newTimeout then .error .TimeoutTooLong
  else
    .ok ({ s with callbackTimeout := newTimeout },
      [Event.CallbackTimeoutUpdated newTimeout])

/-- `togglePause`. -/
def togglePause (s : ContractState) (sender : Nat) :
    Except Err (ContractState × List Event) :=
  if sender ≠ s.owner then .error .NotOwner
  else
    .ok ({ s with isPaused := !s.isPaused },
      [Event.EmergencyPauseToggled (!s.isPaused)])

/-- `transferOwnership`. -/
def transferOwnership (s : ContractState) (sender newOwner : Nat) :
    Except Err (ContractState × List Event) :=
  if sender ≠ s.owner then .error .NotOwner
  else if newOwner = 0 then .error .InvalidNewOwner
  else
    .ok ({ s with owner := newOwner },
      [Event.OwnershipTransferred s.owner newOwner])

/-- `canClaimTimeoutRefund` (view). -/
def canClaimTimeoutRefund (s : ContractState) (now requestId : Nat) : Bool :=
  if requestId = 0 || s.nextRequestId ≤ requestId then false
  else
    let request := s.matchingRequests requestId
    !request.isCompleted && !request.isRefunded && request.isActive
      && decide (request.timeoutDeadline < now)

/-! ### Serial execution of the state-mutating entry points -/

/-- One invocation of a state-mutating entry point, with all
environment-supplied data (sender, timestamp, payment, Gateway data,
external-transfer outcomes) as constructor arguments. -/
inductive Op where
  | registerPet (sender now : Nat) (name breed : String)
      (age m1 m2 m3 m4 healthRisk temperament : Nat)
  | requestMatching (sender now value petId1 petId2 decryptionRequestId : Nat)
  | processMatchingCallback (now decryptionRequestId cleartextScore : Nat)
      (proofValid sendOk : Bool)
  | claimTimeoutRefund (now requestId : Nat) (sendOk : Bool)
  | toggleBreedingStatus (sender petId : Nat)
  | withdrawPlatformFees (sender toAddr : Nat) (sendOk : Bool)
  | setCallbackTimeout (sender newTimeout : Nat)
  | togglePause (sender : Nat)
  | transferOwnership (sender newOwner : Nat)
deriving DecidableEq

/-- Dispatch one invocation (return values dropped, events kept). -/
def step (s : ContractState) : Op → Except Err (ContractState × List Event)
  | .registerPet sender now name breed age m1 m2 m3 m4 hr tp =>
      (registerPet s sender now name breed age m1 m2 m3 m4 hr tp).map
        (fun r => (r.1, r.2.2))
  | .requestMatching sender now value petId1 petId2 did =>
      (requestMatching s sender now value petId1 petId2 did).map
        (fun r => (r.1, r.2.2))
  | .processMatchingCallback now did score proofValid sendOk =>
      processMatchingCallback s now did score proofValid sendOk
  | .claimTimeoutRefund now requestId sendOk =>
      claimTimeoutRefund s now requestId sendOk
  | .toggleBreedingStatus sender petId => toggleBreedingStatus s sender petId
  | .withdrawPlatformFees sender toAddr sendOk => withdrawPlatformFees s sender toAddr sendOk
  | .setCallbackTimeout sender newTimeout => setCallbackTimeout s sender newTimeout
  | .togglePause sender => togglePause s sender
  | .transferOwnership sender newOwner => transferOwnership s sender newOwner

/-- Execute one invocation; a reverted call leaves the state unchanged and
emits nothing. -/
def exec (s : ContractState) (op : Op) : ContractState × List Event :=
  match step s op with
  | .ok r => r
  | .error _ => (s, [])

/-- Execute a serial sequence of invocations, accumulating events. -/
def run (s : ContractState) : List Op → ContractState × List Event
  | [] => (s, [])
  | op :: ops =>
      let r := exec s op
      let r2 := run r.1 ops
      (r2.1, r.2 ++ r2.2)

/-- Does this event observably move the paid fee of request `rid`?
(`MatchingRefunded` pays the fee back; `MatchingCompleted` with
`isSuccessfulMatch = true` retains it into `platformFees`.) -/
def movesFee (rid : Nat) : Event → Bool
  | .MatchingRefunded r _ _ _ => r == rid
  | .MatchingCompleted r _ isSuccessfulMatch => r == rid && isSuccessfulMatch
  | _ => false

/-- Number of fee movements for request `rid` in an event log. -/
def feeMoves (rid : Nat) (evs : List Event) : Nat :=
  (evs.filter (movesFee rid)).length

/-- Request `rid` is in the `Active` lifecycle state. -/
def activeB (s : ContractState) (rid : Nat) : Bool :=
  (s.matchingRequests rid).isActive
    && !(s.matchingRequests rid).isCompleted
    && !(s.matchingRequests rid).isRefunded

/-- Request `rid` is in a terminal lifecycle state. -/
def terminalB (s : ContractState) (rid : Nat) : Bool :=
  !(s.matchingRequests rid).isActive
    && ((s.matchingRequests rid).isCompleted || (s.matchingRequests rid).isRefunded)

/-- This invocation is a callback or timeout claim aimed at request `rid`
(a callback is aimed at the request its decryption id currently resolves
to, and carries a valid proof). -/
def Targets (s : ContractState) (rid : Nat) : Op → Prop
  | .processMatchingCallback _ did _ proofValid _ =>
      proofValid = true ∧ s.requestIdByDecryptionId did = rid
  | .claimTimeoutRefund _ r _ => r = rid
  | _ => False

/-- The flag invariant of every request ever stored: `isActive` holds
exactly when neither terminal flag does. -/
def flagInv (s : ContractState) : Prop :=
  ∀ rid, 0 < rid → rid < s.nextRequestId →
    (s.matchingRequests rid).isActive =
      (!(s.matchingRequests rid).isCompleted && !(s.matchingRequests rid).isRefunded)

/-! ### Concrete scenario data, used by witnesses and counterexamples -/

/-- Two registrations and one matching request, so that request 1 is live:
requester `10`, fee paid, `timeoutDeadline = 100 + 7200 = 7300`. -/
def setupOps : List Op :=
  [ .registerPet 10 0 "Rex" "Lab" 3 1 2 3 4 5 6,
    .registerPet 11 0 "Kai" "Pug" 4 7 8 9 10 11 12,
    .requestMatching 10 100 MATCHING_FEE 1 2 7 ]

/-- The state with request 1 in the `Active` state. -/
def liveState : ContractState := (run (initialState 99) setupOps).1

/-- `liveState` with the contract paused by its owner. -/
def pausedLiveState : ContractState := (run (initialState 99) (setupOps ++ [.togglePause 99])).1

/-- A Gateway callback for request 1 reporting its true raw score 202,
which normalizes to 19 (< 70): the failure-refund path. -/
def lowScoreCallback : Op := .processMatchingCallback 200 7 202 true true

end PetDNA

namespace PetDNA

theorem mapSet_same {α : Type} (m : Nat → α) (k : Nat) (v : α) :
    mapSet m k v k = v := by simp [mapSet]

theorem mapSet_other {α : Type} (m : Nat → α) (k i : Nat) (v : α) (h : i ≠ k) :
    mapSet m k v i = m i := by simp [mapSet, h]

theorem absDiff_lt (a b : Nat) : absDiff a b < 256 := by
  unfold absDiff sub8
  split <;> exact Nat.mod_lt _ (by omega)

theorem specAbsDiff_eq_absDiff (a b : Nat) : specAbsDiff a b = absDiff a b := rfl

/-- C7: over the plaintext values of the encrypted inputs, the contract's
compatibility scoring `_calculateCompatibility` (with `_absDiff` as
`select(a>=b, a-b, b-a)`) equals the spec's §4.2 reference definition:
diversity = sum of the four marker abs-diffs, penalty = sum of the two
health-risk values, closeness = 200 − temperament abs-diff, and the result
is `diversity + closeness − penalty` as a wrapping wide integer. -/
theorem calculateCompatibility_eq_specScore (pet1DNA pet2DNA : DNAProfile) :
    calculateCompatibility pet1DNA pet2DNA = specScore pet1DNA pet2DNA := by
  unfold calculateCompatibility specScore
  simp only [List.foldl, specAbsDiff_eq_absDiff]
  have h1 := absDiff_lt pet1DNA.marker1 pet2DNA.marker1
  have h2 := absDiff_lt pet1DNA.marker2 pet2DNA.marker2
  have h3 := absDiff_lt pet1DNA.marker3 pet2DNA.marker3
  have h4 := absDiff_lt pet1DNA.marker4 pet2DNA.marker4
  have hdiv :
      add32 (add32 (absDiff pet1DNA.marker1 pet2DNA.marker1)
          (absDiff pet1DNA.marker2 pet2DNA.marker2))
        (add32 (absDiff pet1DNA.marker3 pet2DNA.marker3)
          (absDiff pet1DNA.marker4 pet2DNA.marker4)) =
      add32 (add32 (add32 (add32 0 (absDiff pet1DNA.marker1 pet2DNA.marker1))
          (absDiff pet1DNA.marker2 pet2DNA.marker2))
          (absDiff pet1DNA.marker3 pet2DNA.marker3))
        (absDiff pet1DNA.marker4 pet2DNA.marker4) := by
    unfold add32
    omega
  rw [hdiv]

/-- C10: the view `canClaimTimeoutRefund` returns `true` exactly when a
`claimTimeoutRefund` call in the same state at the same time passes all of
its precondition checks, i.e. (with the external refund transfer itself
succeeding) does not revert. -/
theorem canClaimTimeoutRefund_agrees (s : ContractState) (now requestId : Nat) :
    canClaimTimeoutRefund s now requestId = true ↔
      ∃ r, claimTimeoutRefund s now requestId true = .ok r := by
  unfold canClaimTimeoutRefund claimTimeoutRefund processRefund
  by_cases hrange : 0 < requestId ∧ requestId < s.nextRequestId
  · obtain ⟨h1, h2⟩ := hrange
    have h0 : ¬ (requestId = 0) := by omega
    have hle : ¬ (s.nextRequestId ≤ requestId) := by omega
    cases hact : (s.matchingRequests requestId).isActive <;>
    cases hc : (s.matchingRequests requestId).isCompleted <;>
    cases hrf : (s.matchingRequests requestId).isRefunded <;>
    by_cases hd : (s.matchingRequests requestId).timeoutDeadline < now <;>
      simp [h0, hle, h1, h2, hact, hc, hrf, hd]
  · have hor : requestId = 0 ∨ s.nextRequestId ≤ requestId := by omega
    rcases hor with h | h <;> simp [h, hrange]

/-- C4: a `processMatchingCallback` whose current time is strictly past
the request's `timeoutDeadline` never completes an `Active` request: it
reverts with the state-conflict error `RequestTimedOut` and leaves the
whole state unchanged, even if it is the first callback delivered. -/
theorem late_callback_rejected (s : ContractState) (now did score : Nat) (sendOk : Bool)
    (h0 : 0 < s.requestIdByDecryptionId did)
    (hact : activeB s (s.requestIdByDecryptionId did) = true)
    (hlate : (s.matchingRequests (s.requestIdByDecryptionId did)).timeoutDeadline < now) :
    processMatchingCallback s now did score true sendOk = .error .RequestTimedOut ∧
    IsStateConflict Err.RequestTimedOut = true ∧
    exec s (.processMatchingCallback now did score true sendOk) = (s, []) := by
  unfold activeB at hact
  simp only [Bool.and_eq_true, Bool.not_eq_true'] at hact
  obtain ⟨⟨ha, hc⟩, _⟩ := hact
  have hmain : processMatchingCallback s now did score true sendOk = .error .RequestTimedOut := by
    unfold processMatchingCallback
    simp [Nat.pos_iff_ne_zero.mp h0, ha, hc, hlate]
  refine ⟨hmain, rfl, ?_⟩
  simp [exec, step, hmain]

theorem mapSet_mapSet {α : Type} (m : Nat → α) (k : Nat) (v w : α) :
    mapSet (mapSet m k v) k w = mapSet m k w := by
  funext i
  by_cases h : i = k <;> simp [mapSet, h]

/-- C6: `requestMatching` demands `msg.value` exactly equal to
`MATCHING_FEE`: any other paid amount (over or under) can never succeed,
and — once the pause and pet-validity guards that run first are passed —
fails with precisely the fee-mismatch validation error (and hence before
any state mutation). -/
theorem exact_fee_required (s : ContractState) (sender now value petId1 petId2 did : Nat)
    (hneq : value ≠ MATCHING_FEE) :
    (∀ r, requestMatching s sender now value petId1 petId2 did ≠ .ok r) ∧
    (s.isPaused = false →
     validPetIdRange s petId1 → (s.pets petId1).existsFlag = true →
     validPetIdRange s petId2 → (s.pets petId2).existsFlag = true →
     requestMatching s sender now value petId1 petId2 did = .error .IncorrectMatchingFee) := by
  constructor
  · intro r h
    unfold requestMatching at h
    simp only [hneq] at h
    iterate 10 (all_goals (try split at h))
    all_goals simp_all
  · intro hp hv1 he1 hv2 he2
    unfold requestMatching
    simp [hp, hv1, he1, hv2, he2, hneq]

/-- C8: with the other validations satisfied, `registerPet` accepts a name
of exactly 50 characters and rejects a 51-character name with the
name-length validation error (hence before any state mutation): the bound
is inclusive at 50. -/
theorem name_length_boundary (s : ContractState) (sender now : Nat) (name breed : String)
    (age m1 m2 m3 m4 healthRisk temperament : Nat)
    (hp : s.isPaused = false)
    (hb : 0 < breed.length ∧ breed.length ≤ 50)
    (ha : 0 < age ∧ age ≤ 30) :
    (name.length = 50 →
      ∃ r, registerPet s sender now name breed age m1 m2 m3 m4 healthRisk temperament = .ok r) ∧
    (name.length = 51 →
      registerPet s sender now name breed age m1 m2 m3 m4 healthRisk temperament =
        .error .InvalidNameLength) := by
  constructor
  · intro h50
    unfold registerPet
    simp [hp, hb, ha, h50]
  · intro h51
    unfold registerPet
    simp [hp, h51]

/-- C5: in `processMatchingCallback`, a normalized score of at least the
threshold 70 (70 itself included) completes the request as a successful
match and credits the paid fee to `platformFees`; a normalized score
strictly below 70 refunds the full paid fee to the requester and leaves
`platformFees` unchanged. -/
theorem threshold_boundary (s : ContractState) (now did score rid ns : Nat)
    (req : MatchingRequest)
    (hrid : s.requestIdByDecryptionId did = rid)
    (h0 : 0 < rid)
    (hreq : s.matchingRequests rid = req)
    (hact : activeB s rid = true)
    (hontime : ¬ (req.timeoutDeadline < now))
    (hns : normalizeScore (score % 4294967296) = ns) :
    (70 ≤ ns →
      processMatchingCallback s now did score true true =
        .ok ({ s with
                matchingRequests := mapSet s.matchingRequests rid
                  { req with compatibilityScore := ns, isCompleted := true, isActive := false },
                platformFees := s.platformFees + req.paidFee },
             [Event.MatchingCompleted rid ns true])) ∧
    (ns < 70 →
      processMatchingCallback s now did score true true =
        .ok ({ s with
                matchingRequests := mapSet s.matchingRequests rid
                  { req with compatibilityScore := ns, isCompleted := true,
                             isActive := false, isRefunded := true } },
             [Event.MatchingRefunded rid req.requester req.paidFee
                "Compatibility score below threshold",
              Event.MatchingCompleted rid ns false])) := by
  unfold activeB at hact
  rw [hreq] at hact
  simp only [Bool.and_eq_true, Bool.not_eq_true'] at hact
  obtain ⟨⟨hA, hC⟩, hR⟩ := hact
  constructor
  · intro hcmp
    unfold processMatchingCallback MIN_COMPATIBILITY_SCORE
    simp [hrid, Nat.pos_iff_ne_zero.mp h0, hreq, hA, hC, hontime, hns, hcmp]
  · intro hcmp
    unfold processMatchingCallback MIN_COMPATIBILITY_SCORE processRefund
    simp [hrid, Nat.pos_iff_ne_zero.mp h0, hreq, hA, hC, hontime, hns,
      Nat.not_le.mpr hcmp, mapSet_same, mapSet_mapSet, hR]

theorem pmc_pause_independent (s : ContractState) (b : Bool) (now did score : Nat)
    (proofValid sendOk : Bool) :
    processMatchingCallback { s with isPaused := b } now did score proofValid sendOk =
      (processMatchingCallback s now did score proofValid sendOk).map
        (fun r => ({ r.1 with isPaused := b }, r.2)) := by
  unfold processMatchingCallback processRefund
  cases proofValid <;>
  by_cases h0 : s.requestIdByDecryptionId did = 0 <;>
  cases hact : (s.matchingRequests (s.requestIdByDecryptionId did)).isActive <;>
  cases hc : (s.matchingRequests (s.requestIdByDecryptionId did)).isCompleted <;>
  cases hrf : (s.matchingRequests (s.requestIdByDecryptionId did)).isRefunded <;>
  by_cases hd : (s.matchingRequests (s.requestIdByDecryptionId did)).timeoutDeadline < now <;>
  by_cases hth : MIN_COMPATIBILITY_SCORE ≤ normalizeScore (score % 4294967296) <;>
  cases sendOk <;>
    simp [h0, hact, hc, hrf, hd, hth, Except.map, mapSet_same]

theorem ctr_pause_independent (s : ContractState) (b : Bool) (now requestId : Nat)
    (sendOk : Bool) :
    claimTimeoutRefund { s with isPaused := b } now requestId sendOk =
      (claimTimeoutRefund s now requestId sendOk).map
        (fun r => ({ r.1 with isPaused := b }, r.2)) := by
  unfold claimTimeoutRefund processRefund
  by_cases hrange : 0 < requestId ∧ requestId < s.nextRequestId <;>
  cases hact : (s.matchingRequests requestId).isActive <;>
  cases hc : (s.matchingRequests requestId).isCompleted <;>
  cases hrf : (s.matchingRequests requestId).isRefunded <;>
  by_cases hd : (s.matchingRequests requestId).timeoutDeadline < now <;>
  cases sendOk <;>
    simp [hrange, hact, hc, hrf, hd, Except.map, mapSet_same]

/-- C3 amended: only `registerPet` and `requestMatching` consult the pause
guard (each rejecting with `ContractPaused`, hence with no state change,
whenever `isPaused` is true); `processMatchingCallback` and
`claimTimeoutRefund` never consult `isPaused` — their outcome is identical
whatever the pause flag's value. -/
theorem pause_guard_coverage :
    (∀ (s : ContractState) (sender now : Nat) (name breed : String)
        (age m1 m2 m3 m4 healthRisk temperament : Nat), s.isPaused = true →
        registerPet s sender now name breed age m1 m2 m3 m4 healthRisk temperament =
          .error .ContractPaused) ∧
    (∀ (s : ContractState) (sender now value petId1 petId2 did : Nat), s.isPaused = true →
        requestMatching s sender now value petId1 petId2 did = .error .ContractPaused) ∧
    (∀ (s : ContractState) (b : Bool) (now did score : Nat) (proofValid sendOk : Bool),
        processMatchingCallback { s with isPaused := b } now did score proofValid sendOk =
          (processMatchingCallback s now did score proofValid sendOk).map
            (fun r => ({ r.1 with isPaused := b }, r.2))) ∧
    (∀ (s : ContractState) (b : Bool) (now requestId : Nat) (sendOk : Bool),
        claimTimeoutRefund { s with isPaused := b } now requestId sendOk =
          (claimTimeoutRefund s now requestId sendOk).map
            (fun r => ({ r.1 with isPaused := b }, r.2))) := by
  refine ⟨?_, ?_, ?_, ?_⟩
  · intro s sender now name breed age m1 m2 m3 m4 healthRisk temperament hp
    unfold registerPet
    simp [hp]
  · intro s sender now value petId1 petId2 did hp
    unfold requestMatching
    simp [hp]
  · intro s b now did score proofValid sendOk
    exact pmc_pause_independent s b now did score proofValid sendOk
  · intro s b now requestId sendOk
    exact ctr_pause_independent s b now requestId sendOk

/-- C3 counterexample: in a reachable paused state (`pausedLiveState`,
built by registering two pets, requesting a match and pausing), a
`processMatchingCallback` still succeeds and mutates the request — the
claim that the callback handler consults the pause guard and rejects while
leaving state unchanged is false. -/
theorem pause_guard_counterexample :
    pausedLiveState.isPaused = true ∧
    (pausedLiveState.matchingRequests 1).isCompleted = false ∧
    ((exec pausedLiveState lowScoreCallback).1.matchingRequests 1).isCompleted = true := by
  decide

/-- C2 counterexample: from the reachable state `liveState`, the Gateway
callback reporting the true raw score 202 (normalized 19 < 70) leaves
request 1 with `isCompleted = true` and `isRefunded = true`
simultaneously — "at most one of the two flags ever becomes true" is
false on the code. -/
theorem both_flags_counterexample :
    ((exec liveState lowScoreCallback).1.matchingRequests 1).isCompleted = true ∧
    ((exec liveState lowScoreCallback).1.matchingRequests 1).isRefunded = true := by
  decide

theorem feeMoves_nil (rid : Nat) : feeMoves rid [] = 0 := rfl

theorem feeMoves_append (rid : Nat) (l1 l2 : List Event) :
    feeMoves rid (l1 ++ l2) = feeMoves rid l1 + feeMoves rid l2 := by
  unfold feeMoves
  rw [List.filter_append, List.length_append]

theorem exec_ok {s : ContractState} {op : Op} {r : ContractState × List Event}
    (h : step s op = .ok r) : exec s op = r := by simp [exec, h]

theorem exec_error {s : ContractState} {op : Op} {e : Err}
    (h : step s op = .error e) : exec s op = (s, []) := by simp [exec, h]

/-! ### Result-shape lemmas: what each successful entry point produces -/

theorem registerPet_ok_shape (s : ContractState) (sender now : Nat) (name breed : String)
    (age m1 m2 m3 m4 healthRisk temperament : Nat) (s' : ContractState) (petId : Nat)
    (evs : List Event)
    (h : registerPet s sender now name breed age m1 m2 m3 m4 healthRisk temperament =
      .ok (s', petId, evs)) :
    s' = { s with
           nextPetId := s.nextPetId + 1
           pets := mapSet s.pets s.nextPetId
             { owner := sender, name := name, breed := breed, age := age
               isAvailableForBreeding := true
               dnaProfile :=
                 { marker1 := m1 % 256, marker2 := m2 % 256, marker3 := m3 % 256
                   marker4 := m4 % 256, healthRisk := healthRisk % 256
                   temperament := temperament % 256, isActive := true }
               registrationTime := now, existsFlag := true }
           ownerToPets := mapSet s.ownerToPets sender (s.ownerToPets sender ++ [s.nextPetId]) } ∧
    petId = s.nextPetId ∧
    evs = [Event.PetRegistered s.nextPetId sender name breed] := by
  unfold registerPet at h
  iterate 4 (split at h <;> try (exact Except.noConfusion h))
  simp only [Except.ok.injEq, Prod.mk.injEq] at h
  obtain ⟨rfl, rfl, rfl⟩ := h
  exact ⟨rfl, rfl, rfl⟩

theorem requestMatching_ok_shape (s : ContractState)
    (sender now value petId1 petId2 did : Nat) (s' : ContractState) (requestId : Nat)
    (evs : List Event)
    (h : requestMatching s sender now value petId1 petId2 did = .ok (s', requestId, evs)) :
    s' = { s with
           nextRequestId := s.nextRequestId + 1
           matchingRequests := mapSet s.matchingRequests s.nextRequestId
             { petId1 := petId1, petId2 := petId2, requester := sender
               isActive := true, isCompleted := false, isRefunded := false
               requestTime := now, timeoutDeadline := now + s.callbackTimeout
               paidFee := value, compatibilityScore := 0
               decryptionRequestId := did
               encryptedScore :=
                 calculateCompatibility (s.pets petId1).dnaProfile (s.pets petId2).dnaProfile }
           requestIdByDecryptionId := mapSet s.requestIdByDecryptionId did s.nextRequestId } ∧
    requestId = s.nextRequestId ∧
    evs = [Event.MatchingRequested s.nextRequestId petId1 petId2 sender (now + s.callbackTimeout),
           Event.DecryptionRequested s.nextRequestId did] := by
  unfold requestMatching at h
  by_cases c1 : s.isPaused = true
  · rw [if_pos c1] at h; exact Except.noConfusion h
  rw [if_neg c1] at h
  by_cases c2 : validPetIdRange s petId1
  · rw [if_neg (not_not_intro c2)] at h
    by_cases c3 : (s.pets petId1).existsFlag = false
    · rw [if_pos c3] at h; exact Except.noConfusion h
    rw [if_neg c3] at h
    by_cases c4 : validPetIdRange s petId2
    · rw [if_neg (not_not_intro c4)] at h
      by_cases c5 : (s.pets petId2).existsFlag = false
      · rw [if_pos c5] at h; exact Except.noConfusion h
      rw [if_neg c5] at h
      by_cases c6 : value ≠ MATCHING_FEE
      · rw [if_pos c6] at h; exact Except.noConfusion h
      rw [if_neg c6] at h
      by_cases c7 : petId1 = petId2
      · rw [if_pos c7] at h; exact Except.noConfusion h
      rw [if_neg c7] at h
      by_cases c8 : (s.pets petId1).isAvailableForBreeding = false
      · rw [if_pos c8] at h; exact Except.noConfusion h
      rw [if_neg c8] at h
      by_cases c9 : (s.pets petId2).isAvailableForBreeding = false
      · rw [if_pos c9] at h; exact Except.noConfusion h
      rw [if_neg c9] at h
      by_cases c10 : sender ≠ (s.pets petId1).owner ∧ sender ≠ (s.pets petId2).owner
      · rw [if_pos c10] at h; exact Except.noConfusion h
      rw [if_neg c10] at h
      injection h with h
      injection h with h1 h
      injection h with h2 h3
      subst h1; subst h2; subst h3
      exact ⟨rfl, rfl, rfl⟩
    · rw [if_pos (by intro hc; exact c4 hc)] at h
      exact Except.noConfusion h
  · rw [if_pos (by intro hc; exact c2 hc)] at h
    exact Except.noConfusion h

theorem processRefund_ok_shape (s : ContractState) (requestId : Nat) (reason : String)
    (sendOk : Bool) (s' : ContractState) (evs : List Event)
    (h : processRefund s requestId reason sendOk = .ok (s', evs)) :
    (s.matchingRequests requestId).isRefunded = false ∧
    s' = { s with
           matchingRequests := mapSet s.matchingRequests requestId
             { s.matchingRequests requestId with isRefunded := true, isActive := false } } ∧
    evs = [Event.MatchingRefunded requestId (s.matchingRequests requestId).requester
            (s.matchingRequests requestId).paidFee reason] := by
  unfold processRefund at h
  dsimp only at h
  iterate 2 (split at h <;> try (exact Except.noConfusion h))
  injection h with h
  injection h with h1 h2
  subst h1; subst h2
  refine ⟨?_, rfl, rfl⟩
  simp_all

theorem pmc_ok_shape (s : ContractState) (now did score : Nat) (proofValid sendOk : Bool)
    (s' : ContractState) (evs : List Event)
    (h : processMatchingCallback s now did score proofValid sendOk = .ok (s', evs)) :
    proofValid = true ∧
    s.requestIdByDecryptionId did ≠ 0 ∧
    (s.matchingRequests (s.requestIdByDecryptionId did)).isActive = true ∧
    (s.matchingRequests (s.requestIdByDecryptionId did)).isCompleted = false ∧
    ¬ ((s.matchingRequests (s.requestIdByDecryptionId did)).timeoutDeadline < now) ∧
    ((70 ≤ normalizeScore (score % 4294967296) ∧
      s' = { s with
             matchingRequests := mapSet s.matchingRequests (s.requestIdByDecryptionId did)
               { s.matchingRequests (s.requestIdByDecryptionId did) with
                 compatibilityScore := normalizeScore (score % 4294967296)
                 isCompleted := true, isActive := false }
             platformFees := s.platformFees +
               (s.matchingRequests (s.requestIdByDecryptionId did)).paidFee } ∧
      evs = [Event.MatchingCompleted (s.requestIdByDecryptionId did)
              (normalizeScore (score % 4294967296)) true]) ∨
     (normalizeScore (score % 4294967296) < 70 ∧
      (s.matchingRequests (s.requestIdByDecryptionId did)).isRefunded = false ∧
      sendOk = true ∧
      s' = { s with
             matchingRequests := mapSet s.matchingRequests (s.requestIdByDecryptionId did)
               { s.matchingRequests (s.requestIdByDecryptionId did) with
                 compatibilityScore := normalizeScore (score % 4294967296)
                 isCompleted := true, isActive := false, isRefunded := true } } ∧
      evs = [Event.MatchingRefunded (s.requestIdByDecryptionId did)
              (s.matchingRequests (s.requestIdByDecryptionId did)).requester
              (s.matchingRequests (s.requestIdByDecryptionId did)).paidFee
              "Compatibility score below threshold",
             Event.MatchingCompleted (s.requestIdByDecryptionId did)
              (normalizeScore (score % 4294967296)) false])) := by
  unfold processMatchingCallback processRefund MIN_COMPATIBILITY_SCORE at h
  dsimp only at h
  iterate 5 (split at h <;> try (exact Except.noConfusion h))
  split at h
  · injection h with h
    injection h with h1 h2
    subst h1; subst h2
    simp_all
  · split at h <;> try (exact Except.noConfusion h)
    rename_i s2 evs2 heq
    split at heq <;> try (exact Except.noConfusion heq)
    try (split at heq <;> try (exact Except.noConfusion heq))
    injection heq with heq
    injection heq with he1 he2
    subst he1; subst he2
    injection h with h
    injection h with h1 h2
    subst h1; subst h2
    simp_all [mapSet_same, mapSet_mapSet]
    try omega

theorem ctr_ok_shape (s : ContractState) (now requestId : Nat) (sendOk : Bool)
    (s' : ContractState) (evs : List Event)
    (h : claimTimeoutRefund s now requestId sendOk = .ok (s', evs)) :
    0 < requestId ∧ requestId < s.nextRequestId ∧
    (s.matchingRequests requestId).isActive = true ∧
    (s.matchingRequests requestId).isCompleted = false ∧
    (s.matchingRequests requestId).isRefunded = false ∧
    (s.matchingRequests requestId).timeoutDeadline < now ∧
    sendOk = true ∧
    s' = { s with
           matchingRequests := mapSet s.matchingRequests requestId
             { s.matchingRequests requestId with isRefunded := true, isActive := false } } ∧
    evs = [Event.MatchingRefunded requestId (s.matchingRequests requestId).requester
            (s.matchingRequests requestId).paidFee "Gateway callback timeout",
           Event.TimeoutTriggered requestId (s.matchingRequests requestId).paidFee] := by
  unfold claimTimeoutRefund processRefund at h
  dsimp only at h
  iterate 5 (split at h <;> try (exact Except.noConfusion h))
  split at h <;> try (exact Except.noConfusion h)
  rename_i s2 evs2 heq
  split at heq <;> try (exact Except.noConfusion heq)
  try (split at heq <;> try (exact Except.noConfusion heq))
  injection heq with heq
  injection heq with he1 he2
  subst he1; subst he2
  injection h with h
  injection h with h1 h2
  subst h1; subst h2
  simp_all [mapSet_same, mapSet_mapSet]
  try omega

theorem toggleBreedingStatus_ok_shape (s : ContractState) (sender petId : Nat)
    (s' : ContractState) (evs : List Event)
    (h : toggleBreedingStatus s sender petId = .ok (s', evs)) :
    s' = { s with
           pets := mapSet s.pets petId
             { s.pets petId with
               isAvailableForBreeding := !(s.pets petId).isAvailableForBreeding } } ∧
    evs = [Event.PetBreedingStatusChanged petId (!(s.pets petId).isAvailableForBreeding)] := by
  unfold toggleBreedingStatus at h
  iterate 3 (split at h <;> try (exact Except.noConfusion h))
  injection h with h
  injection h with h1 h2
  subst h1; subst h2
  exact ⟨rfl, rfl⟩

theorem withdrawPlatformFees_ok_shape (s : ContractState) (sender toAddr : Nat)
    (sendOk : Bool) (s' : ContractState) (evs : List Event)
    (h : withdrawPlatformFees s sender toAddr sendOk = .ok (s', evs)) :
    s' = { s with platformFees := 0 } ∧
    evs = [Event.PlatformFeesWithdrawn toAddr s.platformFees] := by
  unfold withdrawPlatformFees at h
  iterate 4 (split at h <;> try (exact Except.noConfusion h))
  injection h with h
  injection h with h1 h2
  subst h1; subst h2
  exact ⟨rfl, rfl⟩

theorem setCallbackTimeout_ok_shape (s : ContractState) (sender newTimeout : Nat)
    (s' : ContractState) (evs : List Event)
    (h : setCallbackTimeout s sender newTimeout = .ok (s', evs)) :
    s' = { s with callbackTimeout := newTimeout } ∧
    evs = [Event.CallbackTimeoutUpdated newTimeout] := by
  unfold setCallbackTimeout at h
  iterate 3 (split at h <;> try (exact Except.noConfusion h))
  injection h with h
  injection h with h1 h2
  subst h1; subst h2
  exact ⟨rfl, rfl⟩

theorem togglePause_ok_shape (s : ContractState) (sender : Nat)
    (s' : ContractState) (evs : List Event)
    (h : togglePause s sender = .ok (s', evs)) :
    s' = { s with isPaused := !s.isPaused } ∧
    evs = [Event.EmergencyPauseToggled (!s.isPaused)] := by
  unfold togglePause at h
  iterate 1 (split at h <;> try (exact Except.noConfusion h))
  injection h with h
  injection h with h1 h2
  subst h1; subst h2
  exact ⟨rfl, rfl⟩

theorem transferOwnership_ok_shape (s : ContractState) (sender newOwner : Nat)
    (s' : ContractState) (evs : List Event)
    (h : transferOwnership s sender newOwner = .ok (s', evs)) :
    s' = { s with owner := newOwner } ∧
    evs = [Event.OwnershipTransferred s.owner newOwner] := by
  unfold transferOwnership at h
  iterate 2 (split at h <;> try (exact Except.noConfusion h))
  injection h with h
  injection h with h1 h2
  subst h1; subst h2
  exact ⟨rfl, rfl⟩

theorem step_registerPet_ok {s s' : ContractState} {sender now : Nat}
    {name breed : String} {age m1 m2 m3 m4 healthRisk temperament : Nat} {evs : List Event}
    (h : step s (.registerPet sender now name breed age m1 m2 m3 m4 healthRisk temperament) =
      .ok (s', evs)) :
    ∃ petId, registerPet s sender now name breed age m1 m2 m3 m4 healthRisk temperament =
      .ok (s', petId, evs) := by
  simp only [step] at h
  cases hreg : registerPet s sender now name breed age m1 m2 m3 m4 healthRisk temperament with
  | error e => rw [hreg] at h; exact Except.noConfusion h
  | ok r =>
      obtain ⟨s1, petId, evs1⟩ := r
      rw [hreg] at h
      simp only [Except.map] at h
      injection h with h
      injection h with h1 h2
      subst h1; subst h2
      exact ⟨petId, rfl⟩

theorem step_requestMatching_ok {s s' : ContractState}
    {sender now value petId1 petId2 did : Nat} {evs : List Event}
    (h : step s (.requestMatching sender now value petId1 petId2 did) = .ok (s', evs)) :
    ∃ requestId, requestMatching s sender now value petId1 petId2 did =
      .ok (s', requestId, evs) := by
  simp only [step] at h
  cases hreq : requestMatching s sender now value petId1 petId2 did with
  | error e => rw [hreq] at h; exact Except.noConfusion h
  | ok r =>
      obtain ⟨s1, requestId, evs1⟩ := r
      rw [hreq] at h
      simp only [Except.map] at h
      injection h with h
      injection h with h1 h2
      subst h1; subst h2
      exact ⟨requestId, rfl⟩

/-- A successful operation leaves an inactive (in particular terminal)
request's record untouched, cannot move its fee, and keeps its id in
range. -/
theorem step_frozen (s s' : ContractState) (evs : List Event) (op : Op) (rid : Nat)
    (h0 : 0 < rid) (hn : rid < s.nextRequestId)
    (hA : (s.matchingRequests rid).isActive = false)
    (h : step s op = .ok (s', evs)) :
    s'.matchingRequests rid = s.matchingRequests rid ∧
    rid < s'.nextRequestId ∧
    feeMoves rid evs = 0 := by
  cases op with
  | registerPet sender now name breed age m1 m2 m3 m4 healthRisk temperament =>
      obtain ⟨petId, hreg⟩ := step_registerPet_ok h
      obtain ⟨hs, hp, he⟩ := registerPet_ok_shape _ _ _ _ _ _ _ _ _ _ _ _ _ _ _ hreg
      subst hs; subst he
      exact ⟨rfl, hn, rfl⟩
  | requestMatching sender now value petId1 petId2 did =>
      obtain ⟨requestId, hreq⟩ := step_requestMatching_ok h
      obtain ⟨hs, hp, he⟩ := requestMatching_ok_shape _ _ _ _ _ _ _ _ _ _ hreq
      subst hs; subst he
      refine ⟨mapSet_other _ _ _ _ (by omega), by simp; omega, rfl⟩
  | processMatchingCallback now did score proofValid sendOk =>
      simp only [step] at h
      obtain ⟨hpv, hne, hact, hcomp, hdl, hcase⟩ := pmc_ok_shape _ _ _ _ _ _ _ _ h
      by_cases hr : s.requestIdByDecryptionId did = rid
      · rw [hr] at hact; rw [hA] at hact; exact Bool.noConfusion hact
      · have hr' : rid ≠ s.requestIdByDecryptionId did := fun hh => hr hh.symm
        rcases hcase with ⟨hsc, hs, he⟩ | ⟨hsc, hrf, hso, hs, he⟩ <;> subst hs <;> subst he
        · exact ⟨mapSet_other _ _ _ _ hr', hn, by simp [feeMoves, movesFee, hr]⟩
        · exact ⟨mapSet_other _ _ _ _ hr', hn, by simp [feeMoves, movesFee, hr]⟩
  | claimTimeoutRefund now requestId sendOk =>
      simp only [step] at h
      obtain ⟨hq0, hqn, hact, hcomp, hrf, hdl, hso, hs, he⟩ := ctr_ok_shape _ _ _ _ _ _ h
      by_cases hr : requestId = rid
      · rw [hr] at hact; rw [hA] at hact; exact Bool.noConfusion hact
      · have hr' : rid ≠ requestId := fun hh => hr hh.symm
        subst hs; subst he
        exact ⟨mapSet_other _ _ _ _ hr', hn, by simp [feeMoves, movesFee, hr]⟩
  | toggleBreedingStatus sender petId =>
      simp only [step] at h
      obtain ⟨hs, he⟩ := toggleBreedingStatus_ok_shape _ _ _ _ _ h
      subst hs; subst he
      exact ⟨rfl, hn, rfl⟩
  | withdrawPlatformFees sender toAddr sendOk =>
      simp only [step] at h
      obtain ⟨hs, he⟩ := withdrawPlatformFees_ok_shape _ _ _ _ _ _ h
      subst hs; subst he
      exact ⟨rfl, hn, rfl⟩
  | setCallbackTimeout sender newTimeout =>
      simp only [step] at h
      obtain ⟨hs, he⟩ := setCallbackTimeout_ok_shape _ _ _ _ _ h
      subst hs; subst he
      exact ⟨rfl, hn, rfl⟩
  | togglePause sender =>
      simp only [step] at h
      obtain ⟨hs, he⟩ := togglePause_ok_shape _ _ _ _ h
      subst hs; subst he
      exact ⟨rfl, hn, rfl⟩
  | transferOwnership sender newOwner =>
      simp only [step] at h
      obtain ⟨hs, he⟩ := transferOwnership_ok_shape _ _ _ _ _ h
      subst hs; subst he
      exact ⟨rfl, hn, rfl⟩

/-- `exec` version of `step_frozen` (failed calls change nothing). -/
theorem exec_frozen (s : ContractState) (op : Op) (rid : Nat)
    (h0 : 0 < rid) (hn : rid < s.nextRequestId)
    (hA : (s.matchingRequests rid).isActive = false) :
    (exec s op).1.matchingRequests rid = s.matchingRequests rid ∧
    rid < (exec s op).1.nextRequestId ∧
    feeMoves rid (exec s op).2 = 0 := by
  cases hstep : step s op with
  | error e => rw [exec_error hstep]; exact ⟨rfl, hn, rfl⟩
  | ok r =>
      obtain ⟨s1, evs1⟩ := r
      rw [exec_ok hstep]
      exact step_frozen s s1 evs1 op rid h0 hn hA hstep

theorem activeB_fields (s : ContractState) (rid : Nat) (h : activeB s rid = true) :
    (s.matchingRequests rid).isActive = true ∧
    (s.matchingRequests rid).isCompleted = false ∧
    (s.matchingRequests rid).isRefunded = false := by
  unfold activeB at h
  simp only [Bool.and_eq_true, Bool.not_eq_true'] at h
  exact ⟨h.1.1, h.1.2, h.2⟩

theorem terminalB_fields (s : ContractState) (rid : Nat) (h : terminalB s rid = true) :
    (s.matchingRequests rid).isActive = false ∧
    ((s.matchingRequests rid).isCompleted = true ∨ (s.matchingRequests rid).isRefunded = true) := by
  unfold terminalB at h
  simp only [Bool.and_eq_true, Bool.not_eq_true', Bool.or_eq_true] at h
  exact h

theorem terminalB_eq_false_of_activeB (s : ContractState) (rid : Nat)
    (h : activeB s rid = true) : terminalB s rid = false := by
  obtain ⟨ha, _, _⟩ := activeB_fields s rid h
  unfold terminalB
  rw [ha]
  rfl

/-- A successful operation either leaves an `Active` request untouched
(moving no fee), or drives it to a terminal state, preserving its paid fee
and moving the fee exactly once. -/
theorem step_active (s s' : ContractState) (evs : List Event) (op : Op) (rid : Nat)
    (hn : rid < s.nextRequestId)
    (hA : activeB s rid = true)
    (h : step s op = .ok (s', evs)) :
    rid < s'.nextRequestId ∧
    ((s'.matchingRequests rid = s.matchingRequests rid ∧ feeMoves rid evs = 0) ∨
     (terminalB s' rid = true ∧
      (s'.matchingRequests rid).paidFee = (s.matchingRequests rid).paidFee ∧
      feeMoves rid evs = 1)) := by
  cases op with
  | registerPet sender now name breed age m1 m2 m3 m4 healthRisk temperament =>
      obtain ⟨petId, hreg⟩ := step_registerPet_ok h
      obtain ⟨hs, hp, he⟩ := registerPet_ok_shape _ _ _ _ _ _ _ _ _ _ _ _ _ _ _ hreg
      subst hs; subst he
      exact ⟨hn, Or.inl ⟨rfl, rfl⟩⟩
  | requestMatching sender now value petId1 petId2 did =>
      obtain ⟨requestId, hreq⟩ := step_requestMatching_ok h
      obtain ⟨hs, hp, he⟩ := requestMatching_ok_shape _ _ _ _ _ _ _ _ _ _ hreq
      subst hs; subst he
      refine ⟨by simp; omega, Or.inl ⟨mapSet_other _ _ _ _ (by omega), rfl⟩⟩
  | processMatchingCallback now did score proofValid sendOk =>
      simp only [step] at h
      obtain ⟨hpv, hne, hact, hcomp, hdl, hcase⟩ := pmc_ok_shape _ _ _ _ _ _ _ _ h
      by_cases hr : s.requestIdByDecryptionId did = rid
      · rw [hr] at hcase
        rcases hcase with ⟨hsc, hs, he⟩ | ⟨hsc, hrf, hso, hs, he⟩ <;> subst hs <;> subst he
        · refine ⟨hn, Or.inr ⟨?_, ?_, ?_⟩⟩
          · unfold terminalB
            simp [mapSet_same]
          · simp [mapSet_same]
          · simp [feeMoves, movesFee]
        · refine ⟨hn, Or.inr ⟨?_, ?_, ?_⟩⟩
          · unfold terminalB
            simp [mapSet_same]
          · simp [mapSet_same]
          · simp [feeMoves, movesFee, List.filter]
      · have hr' : rid ≠ s.requestIdByDecryptionId did := fun hh => hr hh.symm
        rcases hcase with ⟨hsc, hs, he⟩ | ⟨hsc, hrf, hso, hs, he⟩ <;> subst hs <;> subst he
        · exact ⟨hn, Or.inl ⟨mapSet_other _ _ _ _ hr', by simp [feeMoves, movesFee, hr]⟩⟩
        · exact ⟨hn, Or.inl ⟨mapSet_other _ _ _ _ hr', by simp [feeMoves, movesFee, hr]⟩⟩
  | claimTimeoutRefund now requestId sendOk =>
      simp only [step] at h
      obtain ⟨hq0, hqn, hact, hcomp, hrf, hdl, hso, hs, he⟩ := ctr_ok_shape _ _ _ _ _ _ h
      subst hs; subst he
      by_cases hr : requestId = rid
      · subst hr
        refine ⟨hn, Or.inr ⟨?_, ?_, ?_⟩⟩
        · unfold terminalB
          simp [mapSet_same]
        · simp [mapSet_same]
        · simp [feeMoves, movesFee, List.filter]
      · have hr' : rid ≠ requestId := fun hh => hr hh.symm
        exact ⟨hn, Or.inl ⟨mapSet_other _ _ _ _ hr', by simp [feeMoves, movesFee, hr]⟩⟩
  | toggleBreedingStatus sender petId =>
      simp only [step] at h
      obtain ⟨hs, he⟩ := toggleBreedingStatus_ok_shape _ _ _ _ _ h
      subst hs; subst he
      exact ⟨hn, Or.inl ⟨rfl, rfl⟩⟩
  | withdrawPlatformFees sender toAddr sendOk =>
      simp only [step] at h
      obtain ⟨hs, he⟩ := withdrawPlatformFees_ok_shape _ _ _ _ _ _ h
      subst hs; subst he
      exact ⟨hn, Or.inl ⟨rfl, rfl⟩⟩
  | setCallbackTimeout sender newTimeout =>
      simp only [step] at h
      obtain ⟨hs, he⟩ := setCallbackTimeout_ok_shape _ _ _ _ _ h
      subst hs; subst he
      exact ⟨hn, Or.inl ⟨rfl, rfl⟩⟩
  | togglePause sender =>
      simp only [step] at h
      obtain ⟨hs, he⟩ := togglePause_ok_shape _ _ _ _ h
      subst hs; subst he
      exact ⟨hn, Or.inl ⟨rfl, rfl⟩⟩
  | transferOwnership sender newOwner =>
      simp only [step] at h
      obtain ⟨hs, he⟩ := transferOwnership_ok_shape _ _ _ _ _ h
      subst hs; subst he
      exact ⟨hn, Or.inl ⟨rfl, rfl⟩⟩

/-- A callback or timeout claim aimed at a no-longer-active request
reverts with a state-conflict error. -/
theorem step_reject (s : ContractState) (op : Op) (rid : Nat)
    (h0 : 0 < rid) (hn : rid < s.nextRequestId)
    (hA : (s.matchingRequests rid).isActive = false)
    (ht : Targets s rid op) :
    ∃ e, step s op = .error e ∧ IsStateConflict e = true := by
  cases op with
  | processMatchingCallback now did score proofValid sendOk =>
      obtain ⟨hpv, hr⟩ := ht
      subst hpv
      refine ⟨.RequestNotActive, ?_, rfl⟩
      simp only [step]
      unfold processMatchingCallback
      rw [hr]
      simp [hA, Nat.pos_iff_ne_zero.mp h0]
  | claimTimeoutRefund now requestId sendOk =>
      have hr : requestId = rid := ht
      subst hr
      refine ⟨.RequestNotActive, ?_, rfl⟩
      simp only [step]
      unfold claimTimeoutRefund
      simp [hA, h0, hn]
  | registerPet sender now name breed age m1 m2 m3 m4 healthRisk temperament => exact ht.elim
  | requestMatching sender now value petId1 petId2 did => exact ht.elim
  | toggleBreedingStatus sender petId => exact ht.elim
  | withdrawPlatformFees sender toAddr sendOk => exact ht.elim
  | setCallbackTimeout sender newTimeout => exact ht.elim
  | togglePause sender => exact ht.elim
  | transferOwnership sender newOwner => exact ht.elim

/-- Every operation preserves the flag invariant. -/
theorem flagInv_step (s : ContractState) (op : Op) (hinv : flagInv s) :
    flagInv (exec s op).1 := by
  cases hstep : step s op with
  | error e => rw [exec_error hstep]; exact hinv
  | ok r =>
      obtain ⟨s1, evs1⟩ := r
      rw [exec_ok hstep]
      cases op with
      | registerPet sender now name breed age m1 m2 m3 m4 healthRisk temperament =>
          obtain ⟨petId, hreg⟩ := step_registerPet_ok hstep
          obtain ⟨hs, hp, he⟩ := registerPet_ok_shape _ _ _ _ _ _ _ _ _ _ _ _ _ _ _ hreg
          subst hs
          exact hinv
      | requestMatching sender now value petId1 petId2 did =>
          obtain ⟨requestId, hreq⟩ := step_requestMatching_ok hstep
          obtain ⟨hs, hp, he⟩ := requestMatching_ok_shape _ _ _ _ _ _ _ _ _ _ hreq
          subst hs
          intro rid h0 hn
          simp only at hn
          by_cases hr : rid = s.nextRequestId
          · subst hr
            simp [mapSet_same]
          · have hlt : rid < s.nextRequestId := by omega
            have := hinv rid h0 hlt
            simpa [mapSet_other _ _ _ _ hr] using this
      | processMatchingCallback now did score proofValid sendOk =>
          obtain ⟨hpv, hne, hact, hcomp, hdl, hcase⟩ := pmc_ok_shape _ _ _ _ _ _ _ _ hstep
          rcases hcase with ⟨hsc, hs, he⟩ | ⟨hsc, hrf, hso, hs, he⟩ <;> subst hs <;>
            intro rid h0 hn <;> simp only at hn
          · by_cases hr : rid = s.requestIdByDecryptionId did
            · subst hr
              simp [mapSet_same]
            · have := hinv rid h0 hn
              simpa [mapSet_other _ _ _ _ hr] using this
          · by_cases hr : rid = s.requestIdByDecryptionId did
            · subst hr
              simp [mapSet_same]
            · have := hinv rid h0 hn
              simpa [mapSet_other _ _ _ _ hr] using this
      | claimTimeoutRefund now requestId sendOk =>
          obtain ⟨hq0, hqn, hact, hcomp, hrf, hdl, hso, hs, he⟩ := ctr_ok_shape _ _ _ _ _ _ hstep
          subst hs
          intro rid h0 hn
          simp only at hn
          by_cases hr : rid = requestId
          · subst hr
            simp [mapSet_same]
          · have := hinv rid h0 hn
            simpa [mapSet_other _ _ _ _ hr] using this
      | toggleBreedingStatus sender petId =>
          obtain ⟨hs, he⟩ := toggleBreedingStatus_ok_shape _ _ _ _ _ hstep
          subst hs
          exact hinv
      | withdrawPlatformFees sender toAddr sendOk =>
          obtain ⟨hs, he⟩ := withdrawPlatformFees_ok_shape _ _ _ _ _ _ hstep
          subst hs
          exact hinv
      | setCallbackTimeout sender newTimeout =>
          obtain ⟨hs, he⟩ := setCallbackTimeout_ok_shape _ _ _ _ _ hstep
          subst hs
          exact hinv
      | togglePause sender =>
          obtain ⟨hs, he⟩ := togglePause_ok_shape _ _ _ _ hstep
          subst hs
          exact hinv
      | transferOwnership sender newOwner =>
          obtain ⟨hs, he⟩ := transferOwnership_ok_shape _ _ _ _ _ hstep
          subst hs
          exact hinv

theorem run_frozen (ops : List Op) : ∀ (s : ContractState) (rid : Nat),
    0 < rid → rid < s.nextRequestId →
    (s.matchingRequests rid).isActive = false →
    (run s ops).1.matchingRequests rid = s.matchingRequests rid ∧
    rid < (run s ops).1.nextRequestId ∧
    feeMoves rid (run s ops).2 = 0 := by
  induction ops with
  | nil => intro s rid h0 hn hA; exact ⟨rfl, hn, rfl⟩
  | cons op rest ih =>
      intro s rid h0 hn hA
      simp only [run]
      obtain ⟨hm, hn1, hf⟩ := exec_frozen s op rid h0 hn hA
      have hA1 : ((exec s op).1.matchingRequests rid).isActive = false := by
        rw [hm]; exact hA
      obtain ⟨hm2, hn2, hf2⟩ := ih (exec s op).1 rid h0 hn1 hA1
      refine ⟨by rw [hm2, hm], hn2, ?_⟩
      rw [feeMoves_append, hf, hf2]

theorem run_active (ops : List Op) : ∀ (s : ContractState) (rid : Nat),
    0 < rid → rid < s.nextRequestId → activeB s rid = true →
    rid < (run s ops).1.nextRequestId ∧
    feeMoves rid (run s ops).2 =
      (if terminalB (run s ops).1 rid = true then 1 else 0) ∧
    (activeB (run s ops).1 rid = true ∨ terminalB (run s ops).1 rid = true) := by
  induction ops with
  | nil =>
      intro s rid h0 hn hact
      refine ⟨hn, ?_, Or.inl hact⟩
      simp only [run, terminalB_eq_false_of_activeB s rid hact]
      rfl
  | cons op rest ih =>
      intro s rid h0 hn hact
      simp only [run]
      cases hstep : step s op with
      | error e =>
          simp only [exec_error hstep]
          obtain ⟨ha, hb, hc⟩ := ih s rid h0 hn hact
          exact ⟨ha, by rw [feeMoves_append]; simpa [feeMoves] using hb, hc⟩
      | ok r =>
          obtain ⟨s1, evs1⟩ := r
          simp only [exec_ok hstep]
          obtain ⟨hn1, hcase⟩ := step_active s s1 evs1 op rid hn hact hstep
          rcases hcase with ⟨hm, hf⟩ | ⟨hterm, hfee, hf⟩
          · have hact1 : activeB s1 rid = true := by
              unfold activeB at hact ⊢
              rw [hm]
              exact hact
            obtain ⟨ha, hb, hc⟩ := ih s1 rid h0 hn1 hact1
            exact ⟨ha, by rw [feeMoves_append, hf, hb]; simp, hc⟩
          · have hA1 : (s1.matchingRequests rid).isActive = false :=
              (terminalB_fields s1 rid hterm).1
            obtain ⟨hm2, hn2, hf2⟩ := run_frozen rest s1 rid h0 hn1 hA1
            have hterm2 : terminalB (run s1 rest).1 rid = true := by
              unfold terminalB at hterm ⊢
              rw [hm2]
              exact hterm
            refine ⟨hn2, ?_, Or.inr hterm2⟩
            rw [feeMoves_append, hf, hf2, hterm2]
            rfl

/-- C1: starting from any state in which request `rid` is `Active`, over
any serial sequence of operations (in particular any sequence of
`processMatchingCallback` and `claimTimeoutRefund` invocations) the fee of
`rid` is moved exactly once if a terminal transition has happened and zero
times otherwise — never twice — and after any prefix that has made `rid`
terminal, every later callback resolving to `rid` (with a valid proof) and
every later `claimTimeoutRefund` of `rid` reverts with a state-conflict
error, leaving the state unchanged. -/
theorem exactly_once_settlement (s : ContractState) (rid : Nat) (ops : List Op)
    (h0 : 0 < rid) (hn : rid < s.nextRequestId) (hact : activeB s rid = true) :
    feeMoves rid (run s ops).2 =
      (if terminalB (run s ops).1 rid = true then 1 else 0) ∧
    (∀ pre op post, ops = pre ++ op :: post →
       terminalB (run s pre).1 rid = true →
       Targets (run s pre).1 rid op →
       ∃ e, step (run s pre).1 op = .error e ∧ IsStateConflict e = true) := by
  refine ⟨(run_active ops s rid h0 hn hact).2.1, ?_⟩
  intro pre op post hsplit hterm htgt
  obtain ⟨hrange, _, _⟩ := run_active pre s rid h0 hn hact
  exact step_reject (run s pre).1 op rid h0 hrange
    (terminalB_fields _ rid hterm).1 htgt

/-- C1 witness: with request 1 live in `liveState` and two successive
timeout claims, the first settles and the second is rejected with a
state-conflict error; the fee is moved exactly once. -/
theorem exactly_once_settlement_witness :
    (0 < 1 ∧ 1 < liveState.nextRequestId ∧ activeB liveState 1 = true) ∧
    (feeMoves 1 (run liveState [Op.claimTimeoutRefund 8000 1 true,
        Op.claimTimeoutRefund 9000 1 true]).2 =
      (if terminalB (run liveState [Op.claimTimeoutRefund 8000 1 true,
          Op.claimTimeoutRefund 9000 1 true]).1 1 = true then 1 else 0) ∧
     (∀ pre op post,
        [Op.claimTimeoutRefund 8000 1 true, Op.claimTimeoutRefund 9000 1 true] =
          pre ++ op :: post →
        terminalB (run liveState pre).1 1 = true →
        Targets (run liveState pre).1 1 op →
        ∃ e, step (run liveState pre).1 op = .error e ∧ IsStateConflict e = true)) :=
  ⟨⟨by decide, by decide, by decide⟩,
   exactly_once_settlement liveState 1
     [Op.claimTimeoutRefund 8000 1 true, Op.claimTimeoutRefund 9000 1 true]
     (by decide) (by decide) (by decide)⟩

/-- C2 amended: once a request is terminal (one or — on the sub-threshold
callback path — both of `isCompleted`/`isRefunded` set, `isActive`
cleared), no operation ever mutates its record again; and the only
single-operation way an `Active` request acquires both flags at once is a
valid-proof `processMatchingCallback` whose normalized score is below the
threshold 70. -/
theorem terminal_immutable (s : ContractState) (op : Op) (rid : Nat)
    (h0 : 0 < rid) (hn : rid < s.nextRequestId) :
    (terminalB s rid = true →
      (exec s op).1.matchingRequests rid = s.matchingRequests rid) ∧
    (activeB s rid = true →
      ((exec s op).1.matchingRequests rid).isCompleted = true →
      ((exec s op).1.matchingRequests rid).isRefunded = true →
      ∃ now did score sendOk,
        op = .processMatchingCallback now did score true sendOk ∧
        s.requestIdByDecryptionId did = rid ∧
        normalizeScore (score % 4294967296) < 70) := by
  constructor
  · intro hterm
    exact (exec_frozen s op rid h0 hn (terminalB_fields s rid hterm).1).1
  · intro hact hc hr
    obtain ⟨hA, hC, hR⟩ := activeB_fields s rid hact
    cases hstep : step s op with
    | error e =>
        rw [exec_error hstep] at hc
        exact absurd hc (by rw [hC]; exact Bool.false_ne_true)
    | ok r =>
        obtain ⟨s1, evs1⟩ := r
        rw [exec_ok hstep] at hc hr
        cases op with
        | registerPet sender now name breed age m1 m2 m3 m4 healthRisk temperament =>
            obtain ⟨petId, hreg⟩ := step_registerPet_ok hstep
            obtain ⟨hs, hp, he⟩ := registerPet_ok_shape _ _ _ _ _ _ _ _ _ _ _ _ _ _ _ hreg
            subst hs
            exact absurd hc (by simp [hC])
        | requestMatching sender now value petId1 petId2 did =>
            obtain ⟨requestId, hreq⟩ := step_requestMatching_ok hstep
            obtain ⟨hs, hp, he⟩ := requestMatching_ok_shape _ _ _ _ _ _ _ _ _ _ hreq
            subst hs
            dsimp only at hc
            rw [mapSet_other _ _ _ _ (by omega : rid ≠ s.nextRequestId)] at hc
            exact absurd hc (by simp [hC])
        | processMatchingCallback now did score proofValid sendOk =>
            obtain ⟨hpv, hne, hactv, hcomp, hdl, hcase⟩ := pmc_ok_shape _ _ _ _ _ _ _ _ hstep
            subst hpv
            by_cases hrr : s.requestIdByDecryptionId did = rid
            · rcases hcase with ⟨hsc, hs, he⟩ | ⟨hsc, hrf, hso, hs, he⟩ <;> subst hs
              · dsimp only at hr
                rw [hrr, mapSet_same] at hr
                dsimp only at hr
                exact absurd hr (by rw [hR]; exact Bool.false_ne_true)
              · exact ⟨now, did, score, sendOk, rfl, hrr, hsc⟩
            · have hr' : rid ≠ s.requestIdByDecryptionId did := fun hh => hrr hh.symm
              rcases hcase with ⟨hsc, hs, he⟩ | ⟨hsc, hrf, hso, hs, he⟩ <;> subst hs <;>
                dsimp only at hc <;>
                rw [mapSet_other _ _ _ _ hr'] at hc <;>
                exact absurd hc (by simp [hC])
        | claimTimeoutRefund now requestId sendOk =>
            obtain ⟨hq0, hqn, hactv, hcomp, hrf, hdl, hso, hs, he⟩ :=
              ctr_ok_shape _ _ _ _ _ _ hstep
            subst hs
            by_cases hrr : rid = requestId
            · subst hrr
              dsimp only at hc
              rw [mapSet_same] at hc
              dsimp only at hc
              exact absurd hc (by rw [hcomp]; exact Bool.false_ne_true)
            · dsimp only at hc
              rw [mapSet_other _ _ _ _ hrr] at hc
              exact absurd hc (by simp [hC])
        | toggleBreedingStatus sender petId =>
            obtain ⟨hs, he⟩ := toggleBreedingStatus_ok_shape _ _ _ _ _ hstep
            subst hs
            exact absurd hc (by simp [hC])
        | withdrawPlatformFees sender toAddr sendOk =>
            obtain ⟨hs, he⟩ := withdrawPlatformFees_ok_shape _ _ _ _ _ _ hstep
            subst hs
            exact absurd hc (by simp [hC])
        | setCallbackTimeout sender newTimeout =>
            obtain ⟨hs, he⟩ := setCallbackTimeout_ok_shape _ _ _ _ _ hstep
            subst hs
            exact absurd hc (by simp [hC])
        | togglePause sender =>
            obtain ⟨hs, he⟩ := togglePause_ok_shape _ _ _ _ hstep
            subst hs
            exact absurd hc (by simp [hC])
        | transferOwnership sender newOwner =>
            obtain ⟨hs, he⟩ := transferOwnership_ok_shape _ _ _ _ _ hstep
            subst hs
            exact absurd hc (by simp [hC])

/-- C2 amended witness: at `liveState`'s terminal successor (after the
low-score callback) a further timeout claim leaves the record untouched. -/
theorem terminal_immutable_witness :
    (0 < 1 ∧ 1 < (exec liveState lowScoreCallback).1.nextRequestId) ∧
    ((terminalB (exec liveState lowScoreCallback).1 1 = true →
      (exec (exec liveState lowScoreCallback).1
          (Op.claimTimeoutRefund 9000 1 true)).1.matchingRequests 1 =
        (exec liveState lowScoreCallback).1.matchingRequests 1) ∧
     (activeB (exec liveState lowScoreCallback).1 1 = true →
      ((exec (exec liveState lowScoreCallback).1
          (Op.claimTimeoutRefund 9000 1 true)).1.matchingRequests 1).isCompleted = true →
      ((exec (exec liveState lowScoreCallback).1
          (Op.claimTimeoutRefund 9000 1 true)).1.matchingRequests 1).isRefunded = true →
      ∃ now did score sendOk,
        Op.claimTimeoutRefund 9000 1 true =
          Op.processMatchingCallback now did score true sendOk ∧
        (exec liveState lowScoreCallback).1.requestIdByDecryptionId did = 1 ∧
        normalizeScore (score % 4294967296) < 70)) :=
  ⟨⟨by decide, by decide⟩,
   terminal_immutable (exec liveState lowScoreCallback).1
     (Op.claimTimeoutRefund 9000 1 true) 1 (by decide) (by decide)⟩

theorem run_preserves_flagInv (ops : List Op) :
    ∀ s : ContractState, flagInv s → flagInv (run s ops).1 := by
  induction ops with
  | nil => intro s h; exact h
  | cons op rest ih =>
      intro s h
      simp only [run]
      exact ih _ (flagInv_step s op h)

/-- C9: in every state reachable from deployment by any serial sequence of
operations, every stored request satisfies
`isActive = (not isCompleted && not isRefunded)`: creation establishes it
and every terminal transition clears `isActive` while setting a terminal
flag. -/
theorem flag_invariant_reachable (deployer : Nat) (ops : List Op) :
    flagInv (run (initialState deployer) ops).1 := by
  apply run_preserves_flagInv
  intro rid h0 hn
  unfold initialState at hn
  simp only at hn
  exact absurd hn (by omega)

/-- C9 witness: the invariant instantiated at request 1 of a concrete
reachable state. -/
theorem flag_invariant_reachable_witness :
    0 < 1 ∧ 1 < (run (initialState 99) setupOps).1.nextRequestId ∧
    ((run (initialState 99) setupOps).1.matchingRequests 1).isActive =
      (!((run (initialState 99) setupOps).1.matchingRequests 1).isCompleted &&
       !((run (initialState 99) setupOps).1.matchingRequests 1).isRefunded) :=
  ⟨by decide, by decide, flag_invariant_reachable 99 setupOps 1 (by decide) (by decide)⟩

/-- C3 amended witness: at the concrete paused state, registration and
match requests revert with `ContractPaused`, while the timeout claim's
behaviour is pause-independent. -/
theorem pause_guard_coverage_witness :
    registerPet pausedLiveState 10 0 "A" "B" 1 0 0 0 0 0 0 = .error .ContractPaused ∧
    requestMatching pausedLiveState 10 0 MATCHING_FEE 1 2 9 = .error .ContractPaused ∧
    claimTimeoutRefund { pausedLiveState with isPaused := true } 8000 1 true =
      (claimTimeoutRefund pausedLiveState 8000 1 true).map
        (fun r => ({ r.1 with isPaused := true }, r.2)) :=
  ⟨pause_guard_coverage.1 pausedLiveState 10 0 "A" "B" 1 0 0 0 0 0 0 (by decide),
   pause_guard_coverage.2.1 pausedLiveState 10 0 MATCHING_FEE 1 2 9 (by decide),
   pause_guard_coverage.2.2.2 pausedLiveState true 8000 1 true⟩

/-- C4 witness: the callback for request 1 delivered at time 8000, past
its deadline 7300, reverts with `RequestTimedOut`. -/
theorem late_callback_rejected_witness :
    processMatchingCallback liveState 8000 7 202 true true = .error .RequestTimedOut :=
  (late_callback_rejected liveState 8000 7 202 true (by decide) (by decide) (by decide)).1

/-- C5 witness: a raw score of 800 normalizes to 78 ≥ 70 and completes
request 1 as a successful match, crediting the fee to `platformFees`. -/
theorem threshold_boundary_witness :
    processMatchingCallback liveState 200 7 800 true true =
      .ok ({ liveState with
             matchingRequests := mapSet liveState.matchingRequests 1
               { liveState.matchingRequests 1 with
                 compatibilityScore := 78, isCompleted := true, isActive := false }
             platformFees := liveState.platformFees +
               (liveState.matchingRequests 1).paidFee },
           [Event.MatchingCompleted 1 78 true]) :=
  (threshold_boundary liveState 200 7 800 1 78 (liveState.matchingRequests 1)
    (by decide) (by decide) rfl (by decide) (by decide) (by decide)).1 (by decide)

/-- C6 witness: paying 5 wei instead of the exact fee is rejected with the
fee-mismatch validation error. -/
theorem exact_fee_required_witness :
    requestMatching liveState 10 100 5 1 2 9 = .error .IncorrectMatchingFee :=
  (exact_fee_required liveState 10 100 5 1 2 9 (by decide)).2 (by decide) (by decide)
    (by decide) (by decide) (by decide)

/-- C8 witness: a 51-character name is rejected with the name-length
validation error. -/
theorem name_length_boundary_witness :
    registerPet liveState 10 0 "aaaaaaaaaaaaaaaaaaaaaaaaaaaaaaaaaaaaaaaaaaaaaaaaaaa" "B"
      1 0 0 0 0 0 0 = .error .InvalidNameLength :=
  (name_length_boundary liveState 10 0
    "aaaaaaaaaaaaaaaaaaaaaaaaaaaaaaaaaaaaaaaaaaaaaaaaaaa" "B" 1 0 0 0 0 0 0
    (by decide) (by decide) (by decide)).2 (by decide)

end PetDNA
